import Mathlib

/-
Shallow embedding of the fleet-state synchronization and mutation-guard
controller of the VM dashboard.  The repository ships three variants of the
controller script:

  * namespace Dashboard1 : the first document in static/js/dashboard.js
    (cluster selection, backend auto node selection, CPU/RAM gauges,
    disk-shrink validation in the configForm submit handler);
  * namespace Dashboard2 : the second document in static/js/dashboard.js
    (cluster selection with a manual node picker, plain configForm onsubmit
    with no disk validation);
  * namespace Part000 : the earlier single-cluster variant in
    unnamed/part_000 (no cluster concept, controlVm confirms every action).

DOM access, markup rendering and the HTTP transport are external
collaborators; the embedding keeps their observable effect (which prompts are
shown, whether a network request is dispatched, what the VM list displays)
as explicit outputs and state, and keeps the exact decision logic of each
source function.  Numbers handled by the scripts are modelled as ℚ for the
metric helpers (JS floats on the small in-range values involved behave
exactly), and as ℤ for the parseInt results in the reconfigure guard, with a
parse failure (NaN) modelled as Option.none.
-/

/-- Lifecycle actions routed through controlVm in all variants. -/
inductive VmAction
  | start
  | shutdown
  | delete
  deriving DecidableEq

/-- Observable outcome of one controlVm invocation: whether the confirm
dialog was shown, whether the POST request was dispatched, and whether the
flow ended with a loadVms snapshot refresh (response ok). -/
structure ControlOutcome where
  prompted : Bool
  networkSent : Bool
  refreshed : Bool
  deriving DecidableEq

/-- Observable outcome of a full confirmDelete flow: how many confirm
dialogs were shown, whether the first dialog carried the escalated
data-loss wording, whether the POST was dispatched, and how many snapshot
refreshes followed. -/
structure DeleteFlowOutcome where
  prompts : Nat
  escalatedWarning : Bool
  networkSent : Bool
  refreshes : Nat
  deriving DecidableEq

/-- Outcome of one handleVmCreate submission.  `skipped` is the isCreating
short-circuit (no prompt, no request), `localError` is a thrown validation
error surfaced before any fetch, `dispatched` means the POST to
/provision/api/vm/create was issued. -/
inductive CreateOutcome
  | skipped
  | localError (message : String)
  | dispatched
  deriving DecidableEq

/-- JS falsiness of a form field read via FormData: a missing key
(undefined) and the empty string are falsy, every other string is truthy. -/
def isFalsyStr : Option String → Bool
  | none => true
  | some s => s == ("")

/-- Observable outcome of one configForm submission: whether the
disk-shrink alert fired, whether the same-size secondary confirmation was
shown, and whether the POST to /provision/api/vm/config was dispatched. -/
structure ConfigOutcome where
  shrinkRejected : Bool
  samePrompt : Bool
  networkSent : Bool
  deriving DecidableEq

/-- Payload of one completed loadVms fetch: the cluster the request was
issued for and the VM list returned for it. -/
structure RefreshResp where
  cluster : String
  vms : List String
  deriving DecidableEq

/-- What the vmList element currently displays: a rendered snapshot or a
plain message (placeholder or error text). -/
inductive ListView
  | rendered (r : RefreshResp)
  | message (text : String)
  deriving DecidableEq

/-- View-observable state: the clusterSelect value and the current vmList
content.  Response handlers never touch the selection. -/
structure ViewState where
  selected : String
  shown : ListView
  deriving DecidableEq

namespace Dashboard1

/-- controlVm of the first dashboard.js variant: a confirm dialog is shown
for every action except delete; a declined dialog returns before the fetch;
otherwise the POST is dispatched and a successful response triggers one
loadVms refresh. -/
def controlVm (action : VmAction) (confirmResult : Bool) (responseOk : Bool) :
    ControlOutcome :=
  let needsConfirm : Bool := action != VmAction.delete
  if needsConfirm && !confirmResult then
    { prompted := needsConfirm, networkSent := false, refreshed := false }
  else
    { prompted := needsConfirm, networkSent := true, refreshed := responseOk }

/-- confirmDelete of the first dashboard.js variant: one confirm dialog,
with escalated data-loss wording when the last-known status is running;
on acceptance it calls controlVm with action delete, which skips its own
dialog. `innerConfirm` is what a second dialog would answer if one were
shown. -/
def confirmDelete (status : String) (confirmResult innerConfirm responseOk : Bool) :
    DeleteFlowOutcome :=
  let escalated : Bool := status == ("running")
  if confirmResult then
    let c := controlVm VmAction.delete innerConfirm responseOk
    { prompts := 1 + (if c.prompted then 1 else 0),
      escalatedWarning := escalated,
      networkSent := c.networkSent,
      refreshes := if c.refreshed then 1 else 0 }
  else
    { prompts := 1, escalatedWarning := escalated,
      networkSent := false, refreshes := 0 }

/-- handleVmCreate of the first dashboard.js variant: short-circuits while
isCreating is set, throws locally when the cluster field is falsy, and
otherwise dispatches.  The node is auto-selected by the backend: the
handler reads no node field, so `node_zone` is ignored. -/
def handleVmCreate (isCreating : Bool) (cluster_name node_zone : Option String) :
    CreateOutcome :=
  if isCreating then CreateOutcome.skipped
  else if isFalsyStr cluster_name then
    CreateOutcome.localError ("클러스터를 선택해주세요.")
  else CreateOutcome.dispatched

/-- getGaugeWidth of dashboard.js: Math.max(5, value / 100 * 95 + 5). -/
def getGaugeWidth (value : ℚ) : ℚ := max 5 (value / 100 * 95 + 5)

/-- Math.round: rounds to the nearest integer, halves toward plus
infinity. -/
def jsRound (q : ℚ) : ℤ := ⌊q + 1 / 2⌋

/-- Result record of calculateRamDisplay. -/
structure RamDisplay where
  memMb : ℤ
  maxmemMb : ℤ
  pct : ℤ
  deriving DecidableEq

/-- calculateRamDisplay of dashboard.js: bytes divided by 1024 twice and
rounded; percent rounded from memBytes / maxmemBytes * 100 when
maxmemBytes is positive, else 0. -/
def calculateRamDisplay (memBytes maxmemBytes : ℚ) : RamDisplay :=
  { memMb := jsRound (memBytes / 1024 / 1024),
    maxmemMb := jsRound (maxmemBytes / 1024 / 1024),
    pct := if 0 < maxmemBytes then jsRound (memBytes / maxmemBytes * 100) else 0 }

/-- parseInt(dataset.currentSize) || 20 — a failed parse (NaN) and the
integer 0 are falsy, so both fall back to 20. -/
def currentSizeOrDefault : Option ℤ → ℤ
  | none => 20
  | some v => if v = 0 then 20 else v

/-- configForm submit handler of the first dashboard.js variant.
`currentSizeRaw` is the parseInt of dataset.currentSize (none on NaN),
`newDiskSizeRaw` the parseInt of the resize field.  A NaN resize compares
false under both < and ===, so it falls through to dispatch. -/
def configSubmit (currentSizeRaw newDiskSizeRaw : Option ℤ) (confirmSame : Bool) :
    ConfigOutcome :=
  let c := currentSizeOrDefault currentSizeRaw
  match newDiskSizeRaw with
  | none => { shrinkRejected := false, samePrompt := false, networkSent := true }
  | some n =>
    if n < c then
      { shrinkRejected := true, samePrompt := false, networkSent := false }
    else if n = c then
      { shrinkRejected := false, samePrompt := true, networkSent := confirmSame }
    else
      { shrinkRejected := false, samePrompt := false, networkSent := true }

/-- Completion handler of a successful loadVms fetch: the response is
rendered into vmList unconditionally — the code compares no sequence
number and never checks whether the selection has moved on since the
request was issued. -/
def applyResponse (s : ViewState) (r : RefreshResp) : ViewState :=
  { s with shown := ListView.rendered r }

/-- Error text the first variant writes into vmList when a refresh
fails. -/
def loadFailMessage : String := "❌ VM 목록 로드 실패 — 클러스터를 다시 선택해주세요"

/-- catch branch of loadVms in the first dashboard.js variant: the vmList
content is replaced by the error message, so the previously rendered
snapshot is no longer shown.  The handler performs no retry. -/
def applyFailure (s : ViewState) : ViewState :=
  { s with shown := ListView.message loadFailMessage }

/-- Model bookkeeping for in-flight controlVm mutations: the list of vmids
whose POST has been dispatched but not yet resolved.  The source keeps no
such registry — stepControl records the dispatch so the duplicate-guard
claim can be stated, but its decision reads only the confirm dialog,
exactly as the code does. -/
structure MutState where
  inFlight : List Nat
  deriving DecidableEq

/-- One user mutation request against the current in-flight state.
Returns the new state and whether a network call was issued.  The gate is
exactly the one in controlVm: confirm unless the action is delete; the
in-flight list is never consulted. -/
def stepControl (s : MutState) (vmid : Nat) (action : VmAction)
    (confirmResult : Bool) : MutState × Bool :=
  let sends : Bool := (action == VmAction.delete) || confirmResult
  if sends then ({ inFlight := vmid :: s.inFlight }, true) else (s, false)

end Dashboard1

namespace Dashboard2

/-- controlVm of the second dashboard.js variant: identical decision logic
to the first variant (delete skips the dialog because confirmDelete has
already asked). -/
def controlVm (action : VmAction) (confirmResult : Bool) (responseOk : Bool) :
    ControlOutcome :=
  let needsConfirm : Bool := action != VmAction.delete
  if needsConfirm && !confirmResult then
    { prompted := needsConfirm, networkSent := false, refreshed := false }
  else
    { prompted := needsConfirm, networkSent := true, refreshed := responseOk }

/-- confirmDelete of the second dashboard.js variant: one dialog, escalated
wording for a running VM, then controlVm with delete (no second dialog). -/
def confirmDelete (status : String) (confirmResult innerConfirm responseOk : Bool) :
    DeleteFlowOutcome :=
  let escalated : Bool := status == ("running")
  if confirmResult then
    let c := controlVm VmAction.delete innerConfirm responseOk
    { prompts := 1 + (if c.prompted then 1 else 0),
      escalatedWarning := escalated,
      networkSent := c.networkSent,
      refreshes := if c.refreshed then 1 else 0 }
  else
    { prompts := 1, escalatedWarning := escalated,
      networkSent := false, refreshes := 0 }

/-- handleVmCreate of the second dashboard.js variant: short-circuits on
isCreating, then requires a truthy cluster_name and a truthy node_zone
before dispatching. -/
def handleVmCreate (isCreating : Bool) (cluster_name node_zone : Option String) :
    CreateOutcome :=
  if isCreating then CreateOutcome.skipped
  else if isFalsyStr cluster_name then
    CreateOutcome.localError ("클러스터를 선택해주세요.")
  else if isFalsyStr node_zone then
    CreateOutcome.localError ("노드를 선택해주세요.")
  else CreateOutcome.dispatched

/-- configForm onsubmit of the second dashboard.js variant: it serializes
the form and POSTs it with no disk-size comparison and no prompt of any
kind; the resize field is passed through unread. -/
def configSubmit (_formResize : Option ℤ) : ConfigOutcome :=
  { shrinkRejected := false, samePrompt := false, networkSent := true }

end Dashboard2

namespace Part000

/-- controlVm of unnamed/part_000: the confirm dialog is shown for every
action, including delete; declining returns before the fetch; a successful
response triggers one loadVms refresh. -/
def controlVm (_action : VmAction) (confirmResult : Bool) (responseOk : Bool) :
    ControlOutcome :=
  if !confirmResult then
    { prompted := true, networkSent := false, refreshed := false }
  else
    { prompted := true, networkSent := true, refreshed := responseOk }

/-- confirmDelete of unnamed/part_000: one dialog (with the data-loss
warning prepended when the VM is running), then a call to controlVm with
delete — which shows its own dialog again. -/
def confirmDelete (status : String) (confirmResult innerConfirm responseOk : Bool) :
    DeleteFlowOutcome :=
  let escalated : Bool := status == ("running")
  if confirmResult then
    let c := controlVm VmAction.delete innerConfirm responseOk
    { prompts := 1 + (if c.prompted then 1 else 0),
      escalatedWarning := escalated,
      networkSent := c.networkSent,
      refreshes := if c.refreshed then 1 else 0 }
  else
    { prompts := 1, escalatedWarning := escalated,
      networkSent := false, refreshes := 0 }

/-- handleVmCreate of unnamed/part_000: short-circuits on isCreating and
requires only a truthy node_zone; the page has no cluster selection at
all, so nothing about a cluster is ever checked. -/
def handleVmCreate (isCreating : Bool) (node_zone : Option String) :
    CreateOutcome :=
  if isCreating then CreateOutcome.skipped
  else if isFalsyStr node_zone then
    CreateOutcome.localError ("노드를 선택해주세요.")
  else CreateOutcome.dispatched

/-- catch branch of loadVms in unnamed/part_000: console.error only — the
view is left exactly as it was, with no stale indicator and no surfaced
error. -/
def applyFailure (s : ViewState) : ViewState := s

end Part000

/-- The gauge formula exactly as the claim states it: the input is clamped
into the interval from 0 to 100 before the linear remap.  Written from the
words of the spec for comparison with the source function. -/
def gaugeWidthClaimed (p : ℚ) : ℚ := min (max p 0) 100 / 100 * 95 + 5

/-- ramDisplay exactly as the claim states it: bytes converted to whole
megabytes by rounding (one division by 1048576), percent rounded from the
used-to-max ratio when the maximum is positive, else 0.  Written from the
words of the spec for comparison with the source function. -/
def ramDisplayClaimed (usedBytes maxBytes : ℚ) : Dashboard1.RamDisplay :=
  { memMb := Dashboard1.jsRound (usedBytes / 1048576),
    maxmemMb := Dashboard1.jsRound (maxBytes / 1048576),
    pct := if 0 < maxBytes then Dashboard1.jsRound (usedBytes / maxBytes * 100)
           else 0 }

/-- C1: the claim quantifies over every reconfigure submission, but the
second configForm handler performs no disk validation: a submission
requesting 15 GB while the last-known current size is the modal default of
20 GB is dispatched to the network with no disk-shrink rejection and no
prompt, contradicting the claimed local rejection. -/
theorem c1_second_variant_counterexample :
    Dashboard2.configSubmit (some 15) =
      { shrinkRejected := false, samePrompt := false, networkSent := true } :=
  rfl

/-- C1 (amended): the first configForm handler implements the guard as
claimed — with C computed as parseInt of the stored current size with 20 as
the falsy fallback: N below C is rejected locally with the disk-shrink
alert and no request, N equal to C shows the secondary confirmation and
dispatches exactly when it is accepted, and N above C dispatches with no
disk prompt.  The second configForm handler dispatches every submission
with no disk check. -/
theorem c1_disk_guard_amended (craw : Option ℤ) (n : ℤ) (conf : Bool) :
    (n < Dashboard1.currentSizeOrDefault craw →
      Dashboard1.configSubmit craw (some n) conf =
        { shrinkRejected := true, samePrompt := false, networkSent := false })
    ∧ (n = Dashboard1.currentSizeOrDefault craw →
      Dashboard1.configSubmit craw (some n) conf =
        { shrinkRejected := false, samePrompt := true, networkSent := conf })
    ∧ (Dashboard1.currentSizeOrDefault craw < n →
      Dashboard1.configSubmit craw (some n) conf =
        { shrinkRejected := false, samePrompt := false, networkSent := true })
    ∧ Dashboard2.configSubmit (some n) =
        { shrinkRejected := false, samePrompt := false, networkSent := true } := by
  refine ⟨?_, ?_, ?_, rfl⟩
  · intro h
    simp [Dashboard1.configSubmit, h]
  · intro h
    simp [Dashboard1.configSubmit, h]
  · intro h
    have h1 : ¬ n < Dashboard1.currentSizeOrDefault craw := by omega
    have h2 : ¬ n = Dashboard1.currentSizeOrDefault craw := by omega
    simp [Dashboard1.configSubmit, h1, h2]

/-- C1 witness: the guard evaluated at current size 20 with requested
sizes 15, 20 and 25, matching the spec examples. -/
theorem c1_disk_guard_witness :
    Dashboard1.configSubmit (some 20) (some 15) true =
      { shrinkRejected := true, samePrompt := false, networkSent := false }
    ∧ Dashboard1.configSubmit (some 20) (some 20) true =
      { shrinkRejected := false, samePrompt := true, networkSent := true }
    ∧ Dashboard1.configSubmit (some 20) (some 25) true =
      { shrinkRejected := false, samePrompt := false, networkSent := true } :=
  ⟨(c1_disk_guard_amended (some 20) 15 true).1 (by decide),
   (c1_disk_guard_amended (some 20) 20 true).2.1 (by decide),
   (c1_disk_guard_amended (some 20) 25 true).2.2.1 (by decide)⟩

/-- C2: with a confirmed start for VM 101 already in flight, a second
confirmed start for VM 101 is dispatched to the network (no
AlreadyInProgress short-circuit exists in the code) and the reachable
state holds two in-flight mutations for the same VM identifier,
contradicting the claimed invariant. -/
theorem c2_duplicate_start_counterexample :
    (Dashboard1.stepControl { inFlight := [101] } 101 VmAction.start true).2 = true
    ∧ (Dashboard1.stepControl { inFlight := [101] } 101 VmAction.start
        true).1.inFlight = [101, 101] := by
  constructor <;> rfl

/-- C2 (amended): the code keeps no per-VM in-flight registry — the
decision to dispatch a start, shutdown or delete depends only on the
confirm dialog and never on the in-flight state, so a second mutation for
the same VM while one is pending is dispatched normally.  Only the create
path is guarded against duplicates, by the single global isCreating flag,
in all three variants. -/
theorem c2_inflight_amended :
    (∀ (s : Dashboard1.MutState) (vmid : Nat) (a : VmAction) (conf : Bool),
      (Dashboard1.stepControl s vmid a conf).2 =
        ((a == VmAction.delete) || conf))
    ∧ (∀ cn nz, Dashboard1.handleVmCreate true cn nz = CreateOutcome.skipped)
    ∧ (∀ cn nz, Dashboard2.handleVmCreate true cn nz = CreateOutcome.skipped)
    ∧ (∀ nz, Part000.handleVmCreate true nz = CreateOutcome.skipped) := by
  refine ⟨?_, fun _ _ => rfl, fun _ _ => rfl, fun _ => rfl⟩
  intro s vmid a conf
  simp only [Dashboard1.stepControl]
  split <;> simp_all

/-- C3: refresh A is issued for cluster_a, the selection switches to
cluster_b and refresh B is issued; B resolves first, then A resolves.
The completion handler applies A unconditionally, so the visible snapshot
ends as cluster_a data while cluster_b is selected — the superseded
response is not discarded, contradicting the claim. -/
theorem c3_superseded_response_counterexample :
    Dashboard1.applyResponse
      (Dashboard1.applyResponse
        { selected := ("cluster_b"),
          shown := ListView.message ("클러스터를 선택한 후 새로고침하세요") }
        { cluster := ("cluster_b"), vms := [("vm-y")] })
      { cluster := ("cluster_a"), vms := [("vm-x")] } =
    { selected := ("cluster_b"),
      shown := ListView.rendered { cluster := ("cluster_a"), vms := [("vm-x")] } } :=
  rfl

/-- C3 (amended): loadVms carries no request-sequence number and discards
nothing: every successful response is rendered on arrival, so after any
sequence of completions the visible snapshot is exactly the last response
to arrive — whichever cluster it was issued for — and the completion
handlers never change the selection. -/
theorem c3_last_arrival_wins_amended (s : ViewState) (rs : List RefreshResp)
    (r : RefreshResp) :
    ((rs ++ [r]).foldl Dashboard1.applyResponse s).shown = ListView.rendered r
    ∧ ((rs ++ [r]).foldl Dashboard1.applyResponse s).selected = s.selected := by
  induction rs generalizing s with
  | nil => exact ⟨rfl, rfl⟩
  | cons a as ih =>
    simpa using ih (Dashboard1.applyResponse s a)

/-- C4: in the part_000 variant, deleting a running VM with both dialogs
accepted shows two confirmation prompts — confirmDelete asks once, then
controlVm asks again for the delete — contradicting the claim that a
delete is never re-confirmed after the caller has already confirmed. -/
theorem c4_double_confirm_counterexample :
    Part000.confirmDelete ("running") true true true =
      { prompts := 2, escalatedWarning := true, networkSent := true,
        refreshes := 1 } :=
  rfl

/-- C4 (amended): in both dashboard.js variants a confirmed delete shows
exactly one prompt, escalated exactly when the last-known status is
running, then one network call and one refresh on success (a declined
prompt ends the flow with no call); in part_000 the confirmed delete is
re-confirmed by controlVm, so the flow shows two prompts and dispatches
only if the second dialog is also accepted. -/
theorem c4_delete_flow_amended (status : String) (c2 ok : Bool) :
    Dashboard1.confirmDelete status true c2 ok =
      { prompts := 1, escalatedWarning := status == ("running"),
        networkSent := true, refreshes := if ok then 1 else 0 }
    ∧ Dashboard1.confirmDelete status false c2 ok =
      { prompts := 1, escalatedWarning := status == ("running"),
        networkSent := false, refreshes := 0 }
    ∧ Dashboard2.confirmDelete status true c2 ok =
      { prompts := 1, escalatedWarning := status == ("running"),
        networkSent := true, refreshes := if ok then 1 else 0 }
    ∧ Part000.confirmDelete status true c2 ok =
      { prompts := 2, escalatedWarning := status == ("running"),
        networkSent := c2, refreshes := if c2 && ok then 1 else 0 } := by
  cases c2 <;> cases ok <;>
    exact ⟨rfl, rfl, rfl, rfl⟩

/-- C5: in the first dashboard.js variant a create submission with a
non-empty cluster and an empty target-node selection is dispatched to the
network — the handler never checks a node field — contradicting the
claimed local MissingField failure when the node selection is empty. -/
theorem c5_autoselect_empty_node_counterexample :
    Dashboard1.handleVmCreate false (some ("cluster_a")) (some ("")) =
      CreateOutcome.dispatched :=
  rfl

/-- C5 (amended): each create handler checks only the fields its own form
carries.  The manual-node variant (second dashboard.js) dispatches exactly
when both the cluster and the node selections are truthy, failing locally
otherwise; the auto-select variant (first dashboard.js) dispatches exactly
when the cluster selection is truthy, regardless of any node value (the
backend picks the node); part_000 dispatches exactly when the node
selection is truthy and has no cluster selection at all. -/
theorem c5_create_guard_amended (cn nz : Option String) :
    (Dashboard2.handleVmCreate false cn nz = CreateOutcome.dispatched ↔
      isFalsyStr cn = false ∧ isFalsyStr nz = false)
    ∧ (Dashboard1.handleVmCreate false cn nz = CreateOutcome.dispatched ↔
      isFalsyStr cn = false)
    ∧ (Part000.handleVmCreate false nz = CreateOutcome.dispatched ↔
      isFalsyStr nz = false) := by
  refine ⟨?_, ?_, ?_⟩ <;>
    simp only [Dashboard2.handleVmCreate, Dashboard1.handleVmCreate,
      Part000.handleVmCreate, if_false, Bool.false_eq_true] <;>
    cases hc : isFalsyStr cn <;> cases hn : isFalsyStr nz <;> simp

/-- C6: after a failed refresh, the first dashboard.js variant replaces the
vmList content with the load-failure message: the previously applied
snapshot for cluster_b is no longer shown at all, contradicting the
claimed retained-and-marked-stale snapshot. -/
theorem c6_snapshot_replaced_counterexample :
    Dashboard1.applyFailure
      { selected := ("cluster_b"),
        shown := ListView.rendered { cluster := ("cluster_b"), vms := [("vm-y")] } } =
      { selected := ("cluster_b"),
        shown := ListView.message Dashboard1.loadFailMessage }
    ∧ ListView.message Dashboard1.loadFailMessage ≠
      ListView.rendered { cluster := ("cluster_b"), vms := [("vm-y")] } := by
  exact ⟨rfl, by decide⟩

/-- C6 (amended): on a failed refresh neither dashboard variant shows the
prior snapshot with a stale indicator — the first dashboard.js variant
replaces the list with an error message (the error is surfaced but the
snapshot is discarded from view), while part_000 leaves the view exactly
unchanged and surfaces nothing (console log only).  No handler retries:
each invocation performs a single fetch attempt. -/
theorem c6_failure_handling_amended (s : ViewState) :
    Dashboard1.applyFailure s =
      { s with shown := ListView.message Dashboard1.loadFailMessage }
    ∧ Part000.applyFailure s = s :=
  ⟨rfl, rfl⟩

/-- C7: the claim includes inputs above 100, but getGaugeWidth never clamps
from above: at 200 the source returns 195 while the claimed clamp formula
returns 100. -/
theorem c7_above_range_counterexample :
    Dashboard1.getGaugeWidth 200 = 195
    ∧ gaugeWidthClaimed 200 = 100
    ∧ Dashboard1.getGaugeWidth 200 ≠ gaugeWidthClaimed 200 := by
  have h1 : Dashboard1.getGaugeWidth 200 = 195 := by
    simp only [Dashboard1.getGaugeWidth]
    rw [show ((200:ℚ) / 100 * 95 + 5) = 195 by norm_num]
    exact max_eq_right (by norm_num)
  have h2 : gaugeWidthClaimed 200 = 100 := by
    simp only [gaugeWidthClaimed]
    rw [show max (200:ℚ) 0 = 200 from max_eq_left (by norm_num),
        show min (200:ℚ) 100 = 100 from min_eq_right (by norm_num)]
    norm_num
  exact ⟨h1, h2, by rw [h1, h2]; norm_num⟩

/-- C7 (amended): getGaugeWidth is Math.max(5, percent / 100 * 95 + 5);
this agrees with the claimed clamp formula for every input up to 100 — in
particular negative inputs floor at 5, 0 maps to 5 and 100 maps to 100 —
but inputs above 100 are not clamped: there the source returns the raw
remap percent / 100 * 95 + 5, which exceeds 100. -/
theorem c7_gauge_formula_amended (v : ℚ) :
    (v ≤ 100 → Dashboard1.getGaugeWidth v = gaugeWidthClaimed v)
    ∧ (100 < v → Dashboard1.getGaugeWidth v = v / 100 * 95 + 5
        ∧ 100 < Dashboard1.getGaugeWidth v) := by
  constructor
  · intro h
    rcases le_or_lt 0 v with h0 | h0
    · have hlin : (5:ℚ) ≤ v / 100 * 95 + 5 := by
        have hv : (0:ℚ) ≤ v / 100 * 95 :=
          mul_nonneg (div_nonneg h0 (by norm_num)) (by norm_num)
        linarith
      simp only [Dashboard1.getGaugeWidth, gaugeWidthClaimed,
        max_eq_left h0, min_eq_left h]
      exact max_eq_right hlin
    · have hlin : v / 100 * 95 + 5 ≤ 5 := by linarith
      simp only [Dashboard1.getGaugeWidth, gaugeWidthClaimed,
        max_eq_right h0.le, min_eq_left (by norm_num : (0:ℚ) ≤ 100)]
      rw [max_eq_left hlin]
      norm_num
  · intro h
    have hlin : (100:ℚ) < v / 100 * 95 + 5 := by linarith
    refine ⟨?_, ?_⟩
    · simp only [Dashboard1.getGaugeWidth]
      exact max_eq_right (by linarith)
    · simp only [Dashboard1.getGaugeWidth]
      calc (100:ℚ) < v / 100 * 95 + 5 := hlin
        _ ≤ max 5 (v / 100 * 95 + 5) := le_max_right _ _

/-- C7 witness: the agreement instantiated at 0 and the unclamped branch
instantiated at 200. -/
theorem c7_gauge_formula_witness :
    Dashboard1.getGaugeWidth 0 = gaugeWidthClaimed 0
    ∧ Dashboard1.getGaugeWidth 200 = 200 / 100 * 95 + 5 :=
  ⟨(c7_gauge_formula_amended 0).1 (by norm_num),
   ((c7_gauge_formula_amended 200).2 (by norm_num)).1⟩

/-- C8: on the interval from 0 to 100 the gauge width stays between 5 and
100 and is monotonically non-decreasing. -/
theorem c8_gauge_bounds_monotone (p : ℚ) (h0 : 0 ≤ p) (h1 : p ≤ 100) :
    5 ≤ Dashboard1.getGaugeWidth p
    ∧ Dashboard1.getGaugeWidth p ≤ 100
    ∧ ∀ q : ℚ, 0 ≤ q → q ≤ 100 → p ≤ q →
        Dashboard1.getGaugeWidth p ≤ Dashboard1.getGaugeWidth q := by
  simp only [Dashboard1.getGaugeWidth]
  refine ⟨le_max_left _ _, ?_, ?_⟩
  · exact max_le (by norm_num) (by linarith)
  · intro q hq0 hq1 hpq
    exact max_le_max le_rfl (by linarith)

/-- C8 witness: bounds at 30 and monotonicity from 30 to 70. -/
theorem c8_gauge_bounds_monotone_witness :
    (5 ≤ Dashboard1.getGaugeWidth 30 ∧ Dashboard1.getGaugeWidth 30 ≤ 100)
    ∧ Dashboard1.getGaugeWidth 30 ≤ Dashboard1.getGaugeWidth 70 :=
  ⟨⟨(c8_gauge_bounds_monotone 30 (by norm_num) (by norm_num)).1,
    (c8_gauge_bounds_monotone 30 (by norm_num) (by norm_num)).2.1⟩,
   (c8_gauge_bounds_monotone 30 (by norm_num) (by norm_num)).2.2 70
     (by norm_num) (by norm_num) (by norm_num)⟩

/-- C9: calculateRamDisplay agrees with the claimed formula on every
input — bytes to whole megabytes by rounding, percent rounded from the
ratio when the maximum is positive and 0 otherwise — and takes the claimed
values at the two spec examples. -/
theorem c9_ram_display :
    (∀ memBytes maxmemBytes : ℚ,
      Dashboard1.calculateRamDisplay memBytes maxmemBytes =
        ramDisplayClaimed memBytes maxmemBytes)
    ∧ Dashboard1.calculateRamDisplay 536870912 1073741824 =
        { memMb := 512, maxmemMb := 1024, pct := 50 }
    ∧ ∀ x : ℚ, (Dashboard1.calculateRamDisplay x 0).pct = 0 := by
  refine ⟨?_, ?_, ?_⟩
  · intro memBytes maxmemBytes
    simp only [Dashboard1.calculateRamDisplay, ramDisplayClaimed,
      Dashboard1.RamDisplay.mk.injEq, div_div]
    norm_num
  · simp only [Dashboard1.calculateRamDisplay, Dashboard1.jsRound,
      Dashboard1.RamDisplay.mk.injEq]
    norm_num
  · intro x
    simp [Dashboard1.calculateRamDisplay]

/-- C10: in all three variants, a start or shutdown request first shows a
confirmation dialog, and when the operator declines, the function returns
with no network request, no refresh and no other observable effect. -/
theorem c10_start_shutdown_confirm (a : VmAction)
    (h : a = VmAction.start ∨ a = VmAction.shutdown) :
    ∀ responseOk confirmResult : Bool,
      ((Dashboard1.controlVm a confirmResult responseOk).prompted = true
        ∧ (Dashboard2.controlVm a confirmResult responseOk).prompted = true
        ∧ (Part000.controlVm a confirmResult responseOk).prompted = true)
      ∧ (Dashboard1.controlVm a false responseOk =
          { prompted := true, networkSent := false, refreshed := false }
        ∧ Dashboard2.controlVm a false responseOk =
          { prompted := true, networkSent := false, refreshed := false }
        ∧ Part000.controlVm a false responseOk =
          { prompted := true, networkSent := false, refreshed := false }) := by
  rcases h with rfl | rfl <;> decide

/-- C10 witness: a declined start is prompted and dispatches nothing. -/
theorem c10_start_shutdown_confirm_witness :
    (Dashboard1.controlVm VmAction.start false true).prompted = true
    ∧ Dashboard1.controlVm VmAction.start false true =
      { prompted := true, networkSent := false, refreshed := false } :=
  ⟨((c10_start_shutdown_confirm VmAction.start (Or.inl rfl) true false).1).1,
   ((c10_start_shutdown_confirm VmAction.start (Or.inl rfl) true false).2).1⟩
